import Mathlib

/-!
Verification of the ChatDoc retrieval-augmented question-answering pipeline
(`utils.py`, `app.py`): chunking policy, vector-index lifecycle, retrieval,
and the two HTTP endpoints, as a shallow embedding.

Text is represented as a list of characters; the persisted Chroma collection
at the fixed location `"chroma_db"` is represented by the list of chunks it
stores; the external embedding / language-model capabilities are parameters
returning `Except String` (the `error` case standing for a raised exception
carrying its message).
-/

/-- A chunk of document text (spec §3): a contiguous substring of the source
document, represented as a list of characters. -/
abbrev Chunk := List Char

/-- The contents of the persisted Chroma collection at the fixed location
`persist_directory="chroma_db"`. The embedding vectors stored next to the
chunk texts are produced deterministically from the texts by the embedding
capability, so the list of chunk texts determines the collection. A location
that was never written and a location holding an empty collection are
indistinguishable to callers of the langchain Chroma wrapper (its constructor
performs get-or-create), so both are the empty list. -/
abbrev ChromaStore := List Chunk

/-- Modelled from the spec: the chunking algorithm is the external langchain
`RecursiveCharacterTextSplitter(chunk_size=512, chunk_overlap=40)` configured
in `utils.process_pdf` (lines 39-43); its implementation is not part of this
repository. Following spec §4.1: a text of at most 512 characters fits in one
chunk; a longer text is cut into windows of at most 512 characters with a
40-character overlap between consecutive windows (step 512 - 40 = 472). We
model the raw character-cut fallback of the recursive splitter; preferring
paragraph/sentence/word boundaries moves the cut points but not the size and
overlap bounds that §4.1 and §8 state. -/
def splitWindows (s : List Char) : List Chunk :=
  if s.length ≤ 512 then [s]
  else s.take 512 :: splitWindows (s.drop 472)
termination_by s.length
decreasing_by simp [List.length_drop]; omega

/-- Modelled from the spec: the splitter applied to the full extracted
document text (`text_splitter.create_documents([document_text])` in
`utils.process_pdf`). Per spec §4.1, a document with zero extractable text
produces an empty sequence of chunks. -/
def split_text (text : List Char) : List Chunk :=
  if text = [] then [] else splitWindows text

/-- `utils.process_pdf` (lines 25-45): loads the PDF at the given path with
the external PyPDFLoader, concatenates the page texts and splits the result
into chunks. The external extraction step is modelled by its outcome for the
uploaded file: the concatenated page text, or the message of the exception it
raised. -/
def process_pdf (extraction : Except String (List Char)) : Except String (List Chunk) :=
  match extraction with
  | .error m => .error m
  | .ok document_text => .ok (split_text document_text)

/-- `utils.create_chroma_store` (lines 48-65):
`Chroma.from_documents(documents, embedding_model, persist_directory="chroma_db")`.
The langchain Chroma wrapper performs get-or-create on the persisted
collection and adds the given documents to it, so a prior collection at the
location is appended to, not replaced. The underlying chromadb collection
rejects an empty batch (its id validation raises
`ValueError("Expected IDs to be a non-empty list")`), which propagates out of
`from_documents` when `documents` is empty. -/
def create_chroma_store (documents : List Chunk) (store : ChromaStore) :
    Except String ChromaStore :=
  if documents = [] then Except.error "Expected IDs to be a non-empty list"
  else Except.ok (store ++ documents)

/-- `utils.load_chroma_store` (lines 68-82):
`Chroma(embedding_function=embedding_model, persist_directory="chroma_db")`.
The Chroma constructor performs get-or-create on the collection: it attaches
to whatever the location holds (an empty collection if nothing was ever
stored there) and never raises. The result is an `Except` so that the absence
of any failure path is visible in the theorem statements. -/
def load_chroma_store (store : ChromaStore) : Except String ChromaStore :=
  Except.ok store

/-- The similarity search `vector_store.as_retriever(search_kwargs={"k": 4})`
delegates to the Chroma index capability (spec §4.3: metric and ranking
delegated, deterministic for a fixed index state). The scoring of stored
chunks against the embedded query is abstracted as a `score` function; the
retriever returns the `k` stored chunks of highest score. -/
def similarity_search (score : Chunk → Nat) (k : Nat) (store : ChromaStore) :
    List Chunk :=
  (store.mergeSort fun a b => decide (score b ≤ score a)).take k

/-- The external capabilities the query path calls (spec §6): embedding the
query yields the retrieval scoring of stored chunks (or fails), and the
language model yields the response text for the assembled prompt (or fails).
The `error` case carries the exception message. -/
structure QueryCaps where
  embedQuery : String → Except String (Chunk → Nat)
  generate : String → Except String String

/-- The prompt assembled by `utils.qa_ret`: the fixed instruction template
with the retrieved context and the verbatim question substituted (instruction
text abridged; no claim depends on its wording). -/
def mkPrompt (context : List Chunk) (question : String) : String :=
  "Instructions: answer between 40 and 100 words, concise, polite, no abusive language, no requests for personal information, by semantic understanding of the Context; if the answer is genuinely not found in the Context, apologize and say the information is not available.\nContext:\n"
    ++ String.intercalate "\n" (context.map fun c => String.mk c)
    ++ "\nUsers Question: " ++ question

/-- `utils.qa_ret` (lines 85-138): builds a retriever over the store with
`k = 4`, assembles the prompt, invokes the model once and returns the parsed
output. The whole body sits inside `try`, so a failure of the embedding or
generation capability is returned as the string `"Error: <message>"` instead
of being raised. -/
def qa_ret (cap : QueryCaps) (vector_store : ChromaStore) (input_query : String) :
    String :=
  match cap.embedQuery input_query with
  | .error m => "Error: " ++ m
  | .ok score =>
    match cap.generate (mkPrompt (similarity_search score 4 vector_store) input_query) with
    | .error m => "Error: " ++ m
    | .ok response => response

/-- `app.upload_pdf` (lines 29-68): writes the uploaded bytes to a temporary
file, runs `process_pdf`, initializes the HuggingFace embedding model, builds
the Chroma store, removes the temporary file and returns the success body;
any exception is caught and re-raised as HTTP 500 with detail
`"Failed to process PDF: <message>"` (the `Except.error` case). The result is
(response body as a key-value list, whether the temporary file is still on
disk afterwards, the collection contents at the location afterwards).
`extraction` is the outcome of the external PDF text extraction for the
uploaded file; `embedInit` the outcome of loading the embedding model. -/
def upload_pdf (extraction : Except String (List Char))
    (embedInit : Except String Unit) (store : ChromaStore) :
    Except String (List (String × String)) × Bool × ChromaStore :=
  match process_pdf extraction with
  | .error m => (Except.error ("Failed to process PDF: " ++ m), true, store)
  | .ok document_chunks =>
    match embedInit with
    | .error m => (Except.error ("Failed to process PDF: " ++ m), true, store)
    | .ok _ =>
      match create_chroma_store document_chunks store with
      | .error m => (Except.error ("Failed to process PDF: " ++ m), true, store)
      | .ok store2 =>
        (Except.ok [("message", "PDF successfully processed and stored in vector DB")],
          false, store2)

/-- `app.ask_question` (lines 71-96): initializes the embedding model, opens
the store with `load_chroma_store`, answers with `qa_ret` and returns
`{"answer": response}`; an exception before `qa_ret` returns would surface as
HTTP 500 with detail `"Failed to retrieve answer: <message>"`. The result is
(response body, the collection contents at the location afterwards). -/
def ask_question (cap : QueryCaps) (store : ChromaStore) (question : String) :
    Except String (List (String × String)) × ChromaStore :=
  match load_chroma_store store with
  | .error m => (Except.error ("Failed to retrieve answer: " ++ m), store)
  | .ok vector_store =>
    (Except.ok [("answer", qa_ret cap vector_store question)], store)

/-- The Scenario A document of spec §8, as a character list. -/
def parisDoc : List Char :=
  "Paris is the capital of France. It is known for the Eiffel Tower.".toList

/-- Concrete query capabilities that never fail, for closed statements. -/
def trivialCaps : QueryCaps where
  embedQuery := fun _ => Except.ok fun _ => 0
  generate := fun _ => Except.ok "The information is not available in the provided context."

/-- Two consecutive chunks overlap: the part of `c` past position 472
(a suffix of `c` of at most 40 characters, since chunks are at most 512
characters long) coincides with the first 40 characters of `c'`. -/
def sharesOverlap (c c' : Chunk) : Prop :=
  (c.drop 472).length ≤ 40 ∧ c.drop 472 = c'.take 40

lemma split_text_of_short (T : List Char) (h1 : T ≠ []) (h2 : T.length ≤ 512) :
    split_text T = [T] := by
  unfold split_text
  rw [if_neg h1, splitWindows, if_pos h2]

lemma length_le_of_mem_splitWindows (s : List Char) :
    ∀ c ∈ splitWindows s, c.length ≤ 512 := by
  induction s using splitWindows.induct with
  | case1 x h =>
    intro c hc
    rw [splitWindows, if_pos h] at hc
    simp only [List.mem_singleton] at hc
    subst hc
    exact h
  | case2 x h ih =>
    intro c hc
    rw [splitWindows, if_neg h] at hc
    rcases List.mem_cons.mp hc with h1 | h2
    · subst h1
      rw [List.length_take]
      omega
    · exact ih c h2

lemma head_take40_splitWindows (s : List Char) :
    ∀ y ∈ (splitWindows s).head?, y.take 40 = s.take 40 := by
  intro y hy
  by_cases h : s.length ≤ 512
  · rw [splitWindows, if_pos h] at hy
    simp only [List.head?_cons, Option.mem_def, Option.some.injEq] at hy
    subst hy
    rfl
  · rw [splitWindows, if_neg h] at hy
    simp only [List.head?_cons, Option.mem_def, Option.some.injEq] at hy
    subst hy
    rw [List.take_take]
    norm_num

lemma chain_sharesOverlap_splitWindows (s : List Char) :
    List.Chain' sharesOverlap (splitWindows s) := by
  induction s using splitWindows.induct with
  | case1 x h =>
    rw [splitWindows, if_pos h]
    simp
  | case2 x h ih =>
    rw [splitWindows, if_neg h]
    rw [List.chain'_cons']
    refine ⟨?_, ih⟩
    intro y hy
    have h40 := head_take40_splitWindows (x.drop 472) y hy
    constructor
    · rw [List.drop_take, List.length_take]
      norm_num
    · rw [List.drop_take, h40]

lemma mem_similarity_search_top (c : Chunk) (store : ChromaStore) (hc : c ∈ store) :
    c ∈ similarity_search (fun x => if x = c then 1 else 0) 4 store := by
  unfold similarity_search
  have hsorted := @List.sorted_mergeSort Chunk
      (fun a b => decide ((if b = c then 1 else 0) ≤ (if a = c then (1 : Nat) else 0)))
      (by
        intro a b d h1 h2
        simp only [decide_eq_true_eq] at h1 h2 ⊢
        omega)
      (by
        intro a b
        simp only [Bool.or_eq_true, decide_eq_true_eq]
        omega)
      store
  have hmem : c ∈ store.mergeSort
      (fun a b => decide ((if b = c then 1 else 0) ≤ (if a = c then (1 : Nat) else 0))) :=
    List.mem_mergeSort.mpr hc
  cases hl : store.mergeSort
      (fun a b => decide ((if b = c then 1 else 0) ≤ (if a = c then (1 : Nat) else 0))) with
  | nil =>
    rw [hl] at hmem
    cases hmem
  | cons a t =>
    rw [hl] at hsorted hmem
    by_cases hac : a = c
    · subst hac
      simp [List.take_succ_cons]
    · have hct : c ∈ t := by
        rcases List.mem_cons.mp hmem with h1 | h2
        · exact absurd h1.symm hac
        · exact h2
      have hrel := (List.pairwise_cons.mp hsorted).1 c hct
      simp [hac] at hrel

/-- C1: the claim states that opening the vector index at a location with no
prior index fails with a structured `IndexNotFound` error. It does not: the
Chroma constructor used by `load_chroma_store` performs get-or-create, so on
a never-ingested location it succeeds with an empty collection and
`ask_question` proceeds to answer over the empty index. -/
theorem c1_counterexample :
    load_chroma_store ([] : ChromaStore) = Except.ok ([] : ChromaStore) ∧
    (ask_question trivialCaps [] "What is the capital of France?").1 =
      Except.ok
        [("answer", "The information is not available in the provided context.")] :=
  ⟨rfl, rfl⟩

/-- C1 amended: opening the index never fails — at a location with no prior
index it returns an empty collection handle (Chroma get-or-create) — and the
query proceeds over the empty index; no `IndexNotFound` failure path exists. -/
theorem c1_open_never_fails (store : ChromaStore) (cap : QueryCaps) (q : String) :
    load_chroma_store store = Except.ok store ∧
    (ask_question cap ([] : ChromaStore) q).1 =
      Except.ok [("answer", qa_ret cap [] q)] :=
  ⟨rfl, rfl⟩

/-- C2: `qa_ret` always returns a string; when the embedding or generation
capability fails with message `m`, the returned string is `"Error: " ++ m`;
when both succeed, the returned string is the generated response. -/
theorem c2_answer_always_string (cap : QueryCaps) (store : ChromaStore) (q : String) :
    (∃ m, (cap.embedQuery q = Except.error m ∨
        ∃ score, cap.embedQuery q = Except.ok score ∧
          cap.generate (mkPrompt (similarity_search score 4 store) q) =
            Except.error m) ∧
      qa_ret cap store q = "Error: " ++ m) ∨
    (∃ score response, cap.embedQuery q = Except.ok score ∧
      cap.generate (mkPrompt (similarity_search score 4 store) q) =
        Except.ok response ∧
      qa_ret cap store q = response) := by
  cases he : cap.embedQuery q with
  | error m =>
    left
    exact ⟨m, Or.inl rfl, by simp only [qa_ret, he]⟩
  | ok score =>
    cases hg : cap.generate (mkPrompt (similarity_search score 4 store) q) with
    | error m =>
      left
      exact ⟨m, Or.inr ⟨score, rfl, hg⟩, by simp only [qa_ret, he, hg]⟩
    | ok response =>
      right
      exact ⟨score, response, rfl, hg, by simp only [qa_ret, he, hg]⟩

/-- C3: the claim states that the ingest result reports a chunk count. It
does not: a successful `upload_pdf` (here: the Scenario A document against an
empty location) returns only the fixed success message, and the body carries
no `chunk_count` key — the chunk count is only printed to the server log. -/
theorem c3_counterexample :
    (upload_pdf (Except.ok parisDoc) (Except.ok ()) []).1 =
      Except.ok [("message", "PDF successfully processed and stored in vector DB")] ∧
    List.lookup "chunk_count"
      [("message", "PDF successfully processed and stored in vector DB")] = none := by
  have hs : split_text parisDoc = [parisDoc] :=
    split_text_of_short parisDoc (by decide) (by decide)
  refine ⟨?_, by decide⟩
  simp [upload_pdf, process_pdf, create_chroma_store, hs]

/-- C3 amended: on successful ingestion the endpoint returns only the fixed
success message, with no `chunk_count` field in the body (the count is logged
only); the chunking step itself produces exactly 1 chunk for a nonempty
document of at most 512 characters. -/
theorem c3_no_chunk_count_in_result (text : List Char) (store : ChromaStore)
    (h1 : text ≠ []) (h2 : text.length ≤ 512) :
    (split_text text).length = 1 ∧
    (upload_pdf (Except.ok text) (Except.ok ()) store).1 =
      Except.ok [("message", "PDF successfully processed and stored in vector DB")] ∧
    List.lookup "chunk_count"
      [("message", "PDF successfully processed and stored in vector DB")] = none := by
  have hs : split_text text = [text] := split_text_of_short text h1 h2
  refine ⟨by simp [hs], ?_, by decide⟩
  simp [upload_pdf, process_pdf, create_chroma_store, hs]

theorem c3_witness :
    parisDoc ≠ [] ∧ parisDoc.length ≤ 512 ∧
    ((split_text parisDoc).length = 1 ∧
      (upload_pdf (Except.ok parisDoc) (Except.ok ()) []).1 =
        Except.ok [("message", "PDF successfully processed and stored in vector DB")] ∧
      List.lookup "chunk_count"
        [("message", "PDF successfully processed and stored in vector DB")] = none) :=
  ⟨by decide, by decide, c3_no_chunk_count_in_result parisDoc [] (by decide) (by decide)⟩

/-- C4: building at a location that already holds an index appends: ingesting
chunk list `A` into an empty location and then chunk list `B` at the same
location leaves the collection holding `A ++ B`, and a subsequent query can
retrieve any chunk of `A` or of `B` (a similarity scoring exists under which
it is among the top 4). -/
theorem c4_accumulation (A B : List Chunk) (hA : A ≠ []) (hB : B ≠ []) :
    ∃ s1 s2, create_chroma_store A [] = Except.ok s1 ∧
      create_chroma_store B s1 = Except.ok s2 ∧ s2 = A ++ B ∧
      (∀ c ∈ A, ∃ score, c ∈ similarity_search score 4 s2) ∧
      (∀ c ∈ B, ∃ score, c ∈ similarity_search score 4 s2) := by
  refine ⟨A, A ++ B, by simp [create_chroma_store, hA], by simp [create_chroma_store, hB],
    rfl, ?_, ?_⟩
  · exact fun c hc => ⟨_, mem_similarity_search_top c _ (by simp [hc])⟩
  · exact fun c hc => ⟨_, mem_similarity_search_top c _ (by simp [hc])⟩

theorem c4_witness :
    ([['a']] : List Chunk) ≠ [] ∧ ([['b']] : List Chunk) ≠ [] ∧
    (∃ s1 s2, create_chroma_store [['a']] [] = Except.ok s1 ∧
      create_chroma_store [['b']] s1 = Except.ok s2 ∧ s2 = [['a']] ++ [['b']] ∧
      (∀ c ∈ ([['a']] : List Chunk), ∃ score, c ∈ similarity_search score 4 s2) ∧
      (∀ c ∈ ([['b']] : List Chunk), ∃ score, c ∈ similarity_search score 4 s2)) :=
  ⟨by decide, by decide, c4_accumulation [['a']] [['b']] (by decide) (by decide)⟩

/-- C5: the claim quantifies over every text of at most 512 characters, but
at the empty text the chunker produces an empty sequence (spec §4.1: zero
extractable text yields zero chunks), not one chunk equal to the text. -/
theorem c5_counterexample :
    split_text ([] : List Char) = [] ∧
    split_text ([] : List Char) ≠ [([] : List Char)] := by
  exact ⟨rfl, by decide⟩

/-- C5 amended: for every nonempty text of at most 512 characters, chunking
yields exactly one chunk, equal to the whole text. -/
theorem c5_short_text_single_chunk (T : List Char) (h1 : T ≠ [])
    (h2 : T.length ≤ 512) :
    split_text T = [T] :=
  split_text_of_short T h1 h2

theorem c5_witness :
    parisDoc ≠ [] ∧ parisDoc.length ≤ 512 ∧ split_text parisDoc = [parisDoc] :=
  ⟨by decide, by decide, c5_short_text_single_chunk parisDoc (by decide) (by decide)⟩

/-- C6: for every text longer than 512 characters, every produced chunk has
at most 512 characters, and each pair of consecutive chunks shares an
overlapping suffix/prefix of up to 40 characters (`sharesOverlap`: the suffix
of the earlier chunk past position 472, which has at most 40 characters,
equals the 40-character prefix of the later chunk). -/
theorem c6_long_text_chunks (T : List Char) (h : 512 < T.length) :
    (∀ c ∈ split_text T, c.length ≤ 512) ∧
    List.Chain' sharesOverlap (split_text T) := by
  have hne : T ≠ [] := by
    rintro rfl
    simp at h
  unfold split_text
  rw [if_neg hne]
  exact ⟨length_le_of_mem_splitWindows T, chain_sharesOverlap_splitWindows T⟩

theorem c6_witness :
    512 < (List.replicate 600 'a').length ∧
    ((∀ c ∈ split_text (List.replicate 600 'a'), c.length ≤ 512) ∧
      List.Chain' sharesOverlap (split_text (List.replicate 600 'a'))) :=
  ⟨by rw [List.length_replicate]; omega,
    c6_long_text_chunks (List.replicate 600 'a') (by rw [List.length_replicate]; omega)⟩

/-- C7: the claim states that a zero-chunk ingestion is rejected with a clear
`EmptyDocument` error message. The rejection does happen, but the message is
the generic wrapped capability error — the chromadb empty-batch validation
failure re-raised as the HTTP 500 detail — and no `EmptyDocument` error
exists anywhere in the code. -/
theorem c7_counterexample :
    (upload_pdf (Except.ok ([] : List Char)) (Except.ok ()) []).1 =
      Except.error "Failed to process PDF: Expected IDs to be a non-empty list" ∧
    "Failed to process PDF: Expected IDs to be a non-empty list" ≠
      "EmptyDocument" := by
  exact ⟨by simp [upload_pdf, process_pdf, create_chroma_store, split_text], by decide⟩

/-- C7 amended: ingestion of a document yielding zero chunks is rejected with
an error — the vector-store capability refuses the empty batch and the
endpoint reports it as the generic `"Failed to process PDF: ..."` HTTP 500
detail, not as a structured `EmptyDocument` error — and the stored collection
is left unchanged (no empty index entry is built). -/
theorem c7_empty_document_rejected (text : List Char) (store : ChromaStore)
    (h : split_text text = []) :
    (upload_pdf (Except.ok text) (Except.ok ()) store).1 =
      Except.error "Failed to process PDF: Expected IDs to be a non-empty list" ∧
    (upload_pdf (Except.ok text) (Except.ok ()) store).2.2 = store := by
  constructor <;> simp [upload_pdf, process_pdf, create_chroma_store, h]

theorem c7_witness :
    split_text ([] : List Char) = [] ∧
    ((upload_pdf (Except.ok ([] : List Char)) (Except.ok ()) []).1 =
        Except.error "Failed to process PDF: Expected IDs to be a non-empty list" ∧
      (upload_pdf (Except.ok ([] : List Char)) (Except.ok ()) []).2.2 = []) :=
  ⟨rfl, c7_empty_document_rejected [] [] rfl⟩

/-- C8: retrieval uses the fixed `k = 4` of `qa_ret` and returns exactly
`min 4 n` chunks from a collection of `n` entries: at most 4, fewer than 4
when the collection holds fewer than 4 entries, and the empty sequence on an
empty collection, never failing. -/
theorem c8_retrieve_top_k (score : Chunk → Nat) (store : ChromaStore) :
    (similarity_search score 4 store).length = min 4 store.length ∧
    (similarity_search score 4 store).length ≤ 4 ∧
    similarity_search score 4 ([] : ChromaStore) = [] := by
  refine ⟨?_, ?_, by simp [similarity_search]⟩
  · rw [similarity_search, List.length_take, List.length_mergeSort]
  · rw [similarity_search, List.length_take]
    exact min_le_left _ _

/-- C9: the query path never mutates the stored index — `ask_question` leaves
the collection contents unchanged — and re-opening without an intervening
build answers identically: asking the same question again against the state
left by a first ask yields the same response body. -/
theorem c9_query_path_readonly (cap : QueryCaps) (store : ChromaStore) (q : String) :
    (ask_question cap store q).2 = store ∧
    (ask_question cap (ask_question cap store q).2 q).1 =
      (ask_question cap store q).1 :=
  ⟨rfl, rfl⟩

/-- C10: the temporary PDF file is removed only on the success path: in every
execution of `upload_pdf` in which a step fails (PDF extraction/chunking,
embedding-model init, or index building), the error is reported and the
temporary file is still on disk afterwards. -/
theorem c10_temp_file_left_on_error (extraction : Except String (List Char))
    (embedInit : Except String Unit) (store : ChromaStore) (m : String)
    (h : (upload_pdf extraction embedInit store).1 = Except.error m) :
    (upload_pdf extraction embedInit store).2.1 = true := by
  unfold upload_pdf at h ⊢
  cases hp : process_pdf extraction with
  | error m2 => rfl
  | ok document_chunks =>
    cases embedInit with
    | error m3 => rfl
    | ok u =>
      cases hc : create_chroma_store document_chunks store with
      | error m4 => simp [hc]
      | ok store2 => simp [hp, hc] at h

theorem c10_witness :
    (upload_pdf (Except.error "cannot open the PDF file") (Except.ok ()) []).1 =
      Except.error "Failed to process PDF: cannot open the PDF file" ∧
    (upload_pdf (Except.error "cannot open the PDF file") (Except.ok ()) []).2.1 = true :=
  ⟨rfl, c10_temp_file_left_on_error _ _ _ _ rfl⟩
